import Mathlib

/-!
Verification of the try-on provider integration layer of the
`tryonclothes` repository (`backend/providers/fal_nanobanana.py` and the
`/api/tryon` route of `backend/app.py`).

The Python source is shallowly embedded: pure helpers become Lean
functions, and the network-facing provider call becomes a deterministic
interpreter over an explicit environment (`Env`) that supplies the
submission response, every status-query response, and the latency of
every status request.  The interpreter returns the terminal outcome
together with the full trace of network requests it issued and the final
value of the wall clock, so that claims about control flow, request
counts and deadlines can be stated directly.
-/

set_option maxRecDepth 100000

/-! ### Prompt builder (`build_prompt`, fal_nanobanana.py lines 32-41) -/

/-- Python truthiness of `category or "clothes"`: `None` and the empty
string both fall back to the default. -/
def pyOr (o : Option String) (d : String) : String :=
  match o with
  | none => d
  | some s => if s = "" then d else s

/-- Identity-preservation sentence embedded in the base prompt
(second literal of the `base` f-string, without its trailing space). -/
def identity_clause : String :=
  "Preserve the person's identity, face, hairstyle, skin tone, body shape, pose and background."

/-- Local variable `base` of `build_prompt` (lines 33-38): the four
adjacent literals of the Python f-string, with the category (or its
default) interpolated. -/
def base_prompt (category : Option String) : String :=
  "Replace the person's current " ++ pyOr category "clothes" ++
    " with the garment shown in the second image. " ++
    "Preserve the person's identity, face, hairstyle, skin tone, body shape, pose and background. " ++
    "Make the fit realistic and natural with correct lighting and fabric drape. Keep hands and accessories intact. " ++
    "Avoid changing facial features."

/-- `build_prompt(category, extra)` (lines 32-41).  `if extra:` is Python
truthiness, so `None` and `""` both skip the appended line. -/
def build_prompt (category extra : Option String) : String :=
  match extra with
  | none => base_prompt category
  | some e =>
      if e = "" then base_prompt category
      else base_prompt category ++ "\nExtra style guidance: " ++ e

/-- Helper: an infix of the middle list is an infix of the whole
concatenation. -/
theorem infix_glue {α : Type} {x m : List α} (l r : List α)
    (h : x <:+: m) : x <:+: l ++ m ++ r := by
  obtain ⟨u, v, hm⟩ := h
  exact ⟨l ++ u, v ++ r, by rw [← hm]; simp [List.append_assoc]⟩

/-- Characters of the base prompt, split at the interpolated category. -/
theorem base_prompt_toList (c : Option String) :
    (base_prompt c).toList =
      "Replace the person's current ".toList ++ (pyOr c "clothes").toList ++
        (" with the garment shown in the second image. " ++
         "Preserve the person's identity, face, hairstyle, skin tone, body shape, pose and background. " ++
         "Make the fit realistic and natural with correct lighting and fabric drape. Keep hands and accessories intact. " ++
         "Avoid changing facial features.").toList := by
  simp [base_prompt, String.toList, String.data_append, List.append_assoc]

/-- The built prompt extends the base prompt on the right. -/
theorem build_prompt_ext (c e : Option String) :
    ∃ t, (build_prompt c e).toList = (base_prompt c).toList ++ t := by
  match e with
  | none => exact ⟨[], by simp [build_prompt]⟩
  | some x =>
      by_cases hx : x = ""
      · exact ⟨[], by simp [build_prompt, hx]⟩
      · refine ⟨("\nExtra style guidance: " ++ x).toList, ?_⟩
        simp [build_prompt, hx, String.toList, String.data_append, List.append_assoc]

/-- C6: for every category (possibly absent, Python truthiness included)
and style hint, `build_prompt` returns a non-empty string containing the
identity-preservation clause verbatim; the prompt contains the category
word when present and the literal "clothes" when absent.  Being a plain
Lean function of its two arguments, `build_prompt` is pure and total. -/
theorem c6_build_prompt_contract (c e : Option String) :
    build_prompt c e ≠ "" ∧
    identity_clause.toList <:+: (build_prompt c e).toList ∧
    (∀ s, c = some s → s.toList <:+: (build_prompt c e).toList) ∧
    (c = none → "clothes".toList <:+: (build_prompt c e).toList) := by
  obtain ⟨t, ht⟩ := build_prompt_ext c e
  have hb := base_prompt_toList c
  rw [hb] at ht
  refine ⟨?_, ?_, ?_, ?_⟩
  · intro h
    have h2 : (build_prompt c e).toList = [] := by rw [h]; rfl
    rw [ht] at h2
    simp at h2
  · have hmid : identity_clause.toList <:+:
        (" with the garment shown in the second image. " ++
         "Preserve the person's identity, face, hairstyle, skin tone, body shape, pose and background. " ++
         "Make the fit realistic and natural with correct lighting and fabric drape. Keep hands and accessories intact. " ++
         "Avoid changing facial features.").toList := by decide
    have := infix_glue
      ("Replace the person's current ".toList ++ (pyOr c "clothes").toList) t hmid
    rw [ht]
    simpa [List.append_assoc] using this
  · intro s hs
    by_cases hz : s = ""
    · subst hz; exact ⟨[], (build_prompt c e).toList, by simp⟩
    · have hw : pyOr c "clothes" = s := by simp [pyOr, hs, hz]
      have : s.toList <:+: (pyOr c "clothes").toList := by
        rw [hw]
      have h2 := infix_glue ("Replace the person's current ".toList)
        ((" with the garment shown in the second image. " ++
          "Preserve the person's identity, face, hairstyle, skin tone, body shape, pose and background. " ++
          "Make the fit realistic and natural with correct lighting and fabric drape. Keep hands and accessories intact. " ++
          "Avoid changing facial features.").toList ++ t) this
      rw [ht]
      simpa [List.append_assoc] using h2
  · intro hc
    have hw : pyOr c "clothes" = "clothes" := by simp [pyOr, hc]
    have : "clothes".toList <:+: (pyOr c "clothes").toList := by rw [hw]
    have h2 := infix_glue ("Replace the person's current ".toList)
      ((" with the garment shown in the second image. " ++
        "Preserve the person's identity, face, hairstyle, skin tone, body shape, pose and background. " ++
        "Make the fit realistic and natural with correct lighting and fabric drape. Keep hands and accessories intact. " ++
        "Avoid changing facial features.").toList ++ t) this
    rw [ht]
    simpa [List.append_assoc] using h2

/-- Witness for C6 at category "dress" with no style hint. -/
theorem c6_build_prompt_contract_witness :
    "dress".toList <:+: (build_prompt (some "dress") none).toList ∧
    build_prompt (some "dress") none ≠ "" :=
  ⟨(c6_build_prompt_contract (some "dress") none).2.2.1 "dress" rfl,
   (c6_build_prompt_contract (some "dress") none).1⟩

/-- C7 counterexample: with style hint "vintage" the appended line is
"Extra style guidance: vintage", so the hint is not on a line by itself
(the output is not the base prompt followed by a newline and the bare
hint, and a newline immediately followed by the hint never occurs). -/
theorem c7_hint_line_counterexample :
    build_prompt none (some "vintage") =
        base_prompt none ++ "\nExtra style guidance: vintage" ∧
    build_prompt none (some "vintage") ≠ base_prompt none ++ "\nvintage" ∧
    ¬ "\nvintage".toList <:+: (build_prompt none (some "vintage")).toList := by
  exact ⟨rfl, by decide, by decide⟩

/-- C7 (amended): a present, nonempty style hint is appended after the
base prompt as the single line "Extra style guidance: <hint>", which
contains the hint verbatim; an absent or empty hint appends nothing. -/
theorem c7_style_hint_amended (c : Option String) (e : String) :
    (e ≠ "" →
      build_prompt c (some e) =
          base_prompt c ++ "\nExtra style guidance: " ++ e ∧
      e.toList <:+: (build_prompt c (some e)).toList) ∧
    build_prompt c (some "") = base_prompt c ∧
    build_prompt c none = base_prompt c := by
  refine ⟨?_, by simp [build_prompt], rfl⟩
  intro he
  have hdef : build_prompt c (some e) =
      base_prompt c ++ "\nExtra style guidance: " ++ e := by
    simp [build_prompt, he]
  refine ⟨hdef, ?_⟩
  rw [hdef]
  exact ⟨(base_prompt c ++ "\nExtra style guidance: ").toList, [],
    by simp [String.toList, String.data_append]⟩

/-- Witness for the amended C7 at category absent and hint "vintage". -/
theorem c7_style_hint_amended_witness :
    build_prompt none (some "vintage") =
        base_prompt none ++ "\nExtra style guidance: " ++ "vintage" :=
  ((c7_style_hint_amended none "vintage").1 (by decide)).1

/-! ### Wire-level data model for `try_on_with_fal_nanobanana`

The provider call is embedded as a deterministic interpreter over an
explicit environment.  Response bodies are modelled structurally: a
`.get` of an absent JSON key is an `Option`, a body that fails
`r.json()` is `none`, and the `resultJson` string field is either a
malformed payload (whose `json.loads` raises) or a parsed object with
its `resultUrls` list. -/

/-- Parse of the `resultJson` string inside a successful status reply
(`json.loads(result_json)`, line 149, and `.get("resultUrls", [])`). -/
inductive ResultJson
  | malformed
  | parsed (resultUrls : List String)
  deriving DecidableEq

/-- Fields the code reads from `sd.get("data", {})` (lines 142-165).
An absent "data" key behaves as the record with all fields absent. -/
structure QueryData where
  state : Option String
  resultJson : Option ResultJson
  failMsg : Option String
  deriving DecidableEq

/-- Fields the code reads from a decoded status reply `sd`. -/
structure QueryBody where
  code : Option Nat
  message : Option String
  data : QueryData
  deriving DecidableEq

/-- One HTTP status reply: status code plus decoded JSON body
(`none` when `sr.json()` raises). -/
structure QueryResponse where
  status : Nat
  body : Option QueryBody
  deriving DecidableEq

/-- Network result of one status request: a reply, or a raised
connection/timeout error (caught by the handler at line 175). -/
inductive QueryStep
  | resp (r : QueryResponse)
  | netError
  deriving DecidableEq

/-- Fields of `data.get("data", {})` in the submission reply (line 90).
`resultUrls` records any result-URL list present in the reply; the code
never reads it (there is no immediate-result path). -/
structure SubmitData where
  taskId : Option String
  resultUrls : List String
  deriving DecidableEq

/-- Decoded submission reply body. -/
structure SubmitBody where
  code : Option Nat
  message : Option String
  data : SubmitData
  deriving DecidableEq

/-- Submission HTTP reply: status code, raw text (used in the error
message of line 82) and decoded body (`none` when `r.json()` raises). -/
structure SubmitResponse where
  status : Nat
  text : String
  body : Option SubmitBody
  deriving DecidableEq

/-- Network result of the submission POST (line 77): a reply, or a
raised `httpx.ConnectError` / `httpx.TimeoutException` whose string
form is carried in the error message (lines 200-205). -/
inductive SubmitOutcome
  | resp (r : SubmitResponse)
  | connectError (e : String)
  | timeoutError (e : String)
  deriving DecidableEq

/-- The abstract network: the submission result, the result of the n-th
status request issued (counted globally across endpoints and payload
shapes), and the wall-clock seconds that request takes. -/
structure Env where
  submit : SubmitOutcome
  query : Nat → QueryStep
  qdur : Nat → Nat

/-- The four query payload encodings tried per tick (lines 107-112):
`{"taskId": id}`, `{"task_id": id}`, `{"id": id}`, and the bare id
(sent as a GET with the id appended to the URL, lines 117-120). -/
inductive PayloadShape
  | taskIdKey
  | taskUnderscoreIdKey
  | idKey
  | bareId
  deriving DecidableEq

/-- `query_payloads` list of line 107, as shape tags. -/
def query_payloads : List PayloadShape :=
  [.taskIdKey, .taskUnderscoreIdKey, .idKey, .bareId]

/-- One issued status request: target query endpoint, payload shape,
wall-clock instant at which it was issued (seconds after submission),
and the `t0` of the poll loop that issued it (line 103). -/
structure QueryReq where
  url : String
  shape : PayloadShape
  time : Nat
  t0 : Nat
  deriving DecidableEq

/-- Interpreter state: number of status requests issued so far, current
wall clock (seconds after submission), and the request trace. -/
structure St where
  n : Nat
  clock : Nat
  queries : List QueryReq
  deriving DecidableEq

/-- Terminal result of the provider call: the returned triple of
line 158, or the message of the `FalError` that escapes to the caller. -/
inductive Outcome
  | ok (url description requestId : String)
  | error (msg : String)
  deriving DecidableEq

/-- Observable summary of one provider call: terminal outcome, number of
submission POSTs, trace of status requests, final wall clock. -/
structure RunResult where
  outcome : Outcome
  submits : Nat
  queries : List QueryReq
  finalClock : Nat
  deriving DecidableEq

/-- `KIE_API_URL` (line 20). -/
def KIE_API_URL : String := "https://api.kie.ai/api/v1/jobs/createTask"

/-- `KIE_QUERY_URLS` (lines 22-27): the ordered catalog of candidate
query endpoints. -/
def KIE_QUERY_URLS : List String :=
  ["https://api.kie.ai/api/v1/jobs/queryTask",
   "https://api.kie.ai/api/v1/jobs/getTask",
   "https://api.kie.ai/api/v1/jobs/task",
   "https://api.kie.ai/api/v1/task"]

/-- Module-level `KIE_API_KEY` (line 18):
`os.getenv("KIE_API_KEY", os.getenv("FAL_KEY", ""))`. -/
def kieApiKeyFromEnv (kieEnvVar falEnvVar : Option String) : String :=
  kieEnvVar.getD (falEnvVar.getD "")

/-- Result of one pass over the four payload shapes (lines 115-177):
the function returned (line 158), the tick observed a non-terminal state
and set `query_success = True` (line 172), or the pass ended with
`query_success` still `False` (404 break at line 129, or all four
attempts swallowed by the handler at lines 175-177). -/
inductive TickResult
  | done (url : String)
  | progressed
  | failed
  deriving DecidableEq

/-- Way the `while` loop of line 104 ends: function return, break with
`query_success` false (line 180), or guard failure carrying the current
`query_success` (line 104, then inspected at lines 188 and 195). -/
inductive LoopExit
  | done (url : String)
  | brokeOut
  | guardExit (qsucc : Bool)
  deriving DecidableEq

/-- Way the endpoint loop of line 98 ends. -/
inductive EndOutcome
  | done (url : String)
  | timedOut
  | allFailed
  deriving DecidableEq

/-- Issuing one status request (lines 117-123): the request counter
advances, the clock advances by the request latency, and the request is
appended to the trace. -/
def issueReq (env : Env) (t0 : Nat) (url : String) (p : PayloadShape) (st : St) : St :=
  ⟨st.n + 1, st.clock + env.qdur st.n, st.queries ++ [⟨url, p, st.clock, t0⟩]⟩

/-- One pass of the inner `for query_payload in query_payloads` loop
(lines 115-177).  Every `raise FalError(...)` inside this loop body
(lines 160, 162, 166) is caught by `except Exception: continue`
(lines 175-177), so those branches continue with the next payload shape;
only the `return` of line 158 leaves the loop with a result.  A raising
progress callback (line 170) is caught by the same handler. -/
def runPayloads (env : Env) (cb : Option (String → Bool)) (t0 : Nat) (url : String) :
    List PayloadShape → St → St × TickResult
  | [], st => (st, .failed)
  | p :: rest, st =>
    -- lines 117-123: issue the request; the clock advances by its latency
    let st1 : St := issueReq env t0 url p st
    match env.query st.n with
    | .netError => runPayloads env cb t0 url rest st1          -- caught at 175
    | .resp sr =>
      if sr.status = 404 then (st1, .failed)                   -- line 127: break
      else if 400 ≤ sr.status then runPayloads env cb t0 url rest st1  -- line 131
      else
        match sr.body with
        | none => runPayloads env cb t0 url rest st1           -- sr.json() raised
        | some sd =>
          if sd.code ≠ some 200 then runPayloads env cb t0 url rest st1  -- line 138
          else if sd.data.state = some "success" then          -- line 145
            match sd.data.resultJson with
            | some (.parsed (u :: _)) => (st1, .done u)        -- line 158: return
            | some (.parsed []) => runPayloads env cb t0 url rest st1   -- line 160 raise, caught
            | some .malformed => runPayloads env cb t0 url rest st1     -- json.loads raised, caught
            | none => runPayloads env cb t0 url rest st1                -- line 162 raise, caught
          else if sd.data.state = some "fail" then             -- line 164
            runPayloads env cb t0 url rest st1                 -- line 166 raise, caught at 175
          else
            match cb with                                      -- lines 169-170
            | some f =>
              if f ("Processing... (elapsed: " ++ toString (st1.clock - t0) ++ "s)") then
                runPayloads env cb t0 url rest st1             -- callback raised, caught
              else (st1, .progressed)                          -- lines 172-173
            | none => (st1, .progressed)

/-- The `while time.time() - t0 < timeout_s` loop of line 104.  One
iteration is one tick (one pass over the payload shapes), followed by
`await asyncio.sleep(2.0)` (line 182) when the tick succeeded.  The
recursion is driven by a gas parameter: since every iteration advances
the clock by at least the 2-second sleep, the loop performs at most
`timeout_s / 2 + 1` iterations, so with the gas `timeout_s + 1` used by
`endpointLoop` the gas-zero exit coincides with the guard-false exit
(theorem `pollLoop_gas_irrelevant`). -/
def pollLoop (env : Env) (cb : Option (String → Bool)) (timeout_s : Nat) (url : String)
    (t0 : Nat) : Nat → Bool → St → St × LoopExit
  | 0, qsucc, st => (st, .guardExit qsucc)
  | gas + 1, qsucc, st =>
    if st.clock - t0 < timeout_s then
      match runPayloads env cb t0 url query_payloads st with
      | (st1, .done u) => (st1, .done u)
      | (st1, .failed) => (st1, .brokeOut)                     -- lines 179-180
      | (st1, .progressed) =>
          -- line 182: sleep two seconds, then re-check the guard
          pollLoop env cb timeout_s url t0 gas true ⟨st1.n, st1.clock + 2, st1.queries⟩
    else (st, .guardExit qsucc)

/-- The `for query_url in KIE_QUERY_URLS` loop (line 98).  Each endpoint
restarts the poll clock (`t0 = time.time()`, line 103) and the loop
advances to the next endpoint unless the poll returned (line 158),
or timed out with `query_success` true (lines 188-189 and 198). -/
def endpointLoop (env : Env) (cb : Option (String → Bool)) (timeout_s : Nat) :
    List String → St → St × EndOutcome
  | [], st => (st, .allFailed)                                 -- lines 195-196
  | url :: rest, st =>
    match pollLoop env cb timeout_s url st.clock (timeout_s + 1) false st with
    | (st1, .done u) => (st1, .done u)
    | (st1, .guardExit true) => (st1, .timedOut)               -- lines 188-189, 198
    | (st1, .guardExit false) => endpointLoop env cb timeout_s rest st1
    | (st1, .brokeOut) => endpointLoop env cb timeout_s rest st1  -- try next endpoint

/-- Stands for `str(e)` of the `json.JSONDecodeError` raised when the
submission body is not valid JSON (wrapped at line 208). -/
def json_decode_error_text : String := "invalid JSON"

/-- `try_on_with_fal_nanobanana` (lines 43-208).  `apiKey` is the value
of the module-level `KIE_API_KEY`; `on_progress` maps each progress
message to whether the callback raises (`none` models passing no
callback).  Every `FalError` raised inside the `try` block of line 74 is
re-wrapped by the blanket handler of lines 206-208 into
`FalError("Unexpected error: <msg>")`; the credential check (line 52)
and the connect/timeout handlers (lines 200-205) sit outside it. -/
def try_on_with_fal_nanobanana (apiKey : String) (timeout_s : Nat)
    (on_progress : Option (String → Bool)) (env : Env) : RunResult :=
  if apiKey = "" then
    -- lines 52-53: fail before any network request
    ⟨.error "KIE_API_KEY not configured", 0, [], 0⟩
  else
    match env.submit with
    | .connectError e =>
        -- lines 200-202
        ⟨.error ("Failed to connect to Kie.ai API: " ++ e), 1, [], 0⟩
    | .timeoutError e =>
        -- lines 203-205
        ⟨.error ("Timeout connecting to Kie.ai API: " ++ e), 1, [], 0⟩
    | .resp r =>
      if 400 ≤ r.status then
        -- line 82, wrapped by line 208
        ⟨.error ("Unexpected error: Kie.ai API failed: " ++ toString r.status ++ " " ++ r.text),
         1, [], 0⟩
      else
        match r.body with
        | none =>
            -- r.json() raised, caught at line 206
            ⟨.error ("Unexpected error: " ++ json_decode_error_text), 1, [], 0⟩
        | some b =>
          if b.code ≠ some 200 then
            -- line 88, wrapped by line 208
            ⟨.error ("Unexpected error: Kie.ai API error: " ++ b.message.getD "Unknown error"),
             1, [], 0⟩
          else
            match b.data.taskId with
            | none =>
                -- line 92, wrapped by line 208
                ⟨.error "Unexpected error: Kie.ai API did not return task ID", 1, [], 0⟩
            | some tid =>
              if tid = "" then
                -- empty string is falsy at line 91
                ⟨.error "Unexpected error: Kie.ai API did not return task ID", 1, [], 0⟩
              else
                match endpointLoop env on_progress timeout_s KIE_QUERY_URLS ⟨0, 0, []⟩ with
                | (st, .done u) =>
                    -- lines 152-158
                    ⟨.ok u "Generated by Nano Banana via Kie.ai" tid, 1, st.queries, st.clock⟩
                | (st, .timedOut) =>
                    -- line 198, wrapped by line 208
                    ⟨.error "Unexpected error: Task polling timed out", 1, st.queries, st.clock⟩
                | (st, .allFailed) =>
                    -- line 196, wrapped by line 208
                    ⟨.error "Unexpected error: All query endpoints failed", 1, st.queries, st.clock⟩

/-! ### Structural lemmas about the poll machinery -/

/-- A payload pass never rewinds the clock. -/
theorem runPayloads_clock_le (env : Env) (cb : Option (String → Bool))
    (t0 : Nat) (url : String) :
    ∀ ps st, st.clock ≤ (runPayloads env cb t0 url ps st).1.clock := by
  intro ps
  induction ps with
  | nil => intro st; simp [runPayloads]
  | cons p rest ih =>
    intro st
    have hst1 : st.clock ≤ (issueReq env t0 url p st).clock :=
      Nat.le_add_right _ _
    have hrec : ∀ r : TickResult,
        st.clock ≤ (runPayloads env cb t0 url rest (issueReq env t0 url p st)).1.clock :=
      fun _ => le_trans hst1 (ih _)
    simp only [runPayloads]
    split
    · exact hrec .failed
    · split
      · exact hst1
      · split
        · exact hrec .failed
        · split
          · exact hrec .failed
          · split
            · exact hrec .failed
            · split
              · split
                · exact hst1
                · exact hrec .failed
                · exact hrec .failed
                · exact hrec .failed
              · split
                · exact hrec .failed
                · split
                  · split
                    · exact hrec .failed
                    · exact hst1
                  · exact hst1

/-- Shape of one step of a payload pass: the head payload either
continues to the rest of the pass or yields a leaf result. -/
theorem runPayloads_cons (env : Env) (cb : Option (String → Bool))
    (t0 : Nat) (url : String) (p : PayloadShape) (rest : List PayloadShape) (st : St) :
    runPayloads env cb t0 url (p :: rest) st =
      runPayloads env cb t0 url rest (issueReq env t0 url p st) ∨
    ∃ r, runPayloads env cb t0 url (p :: rest) st = (issueReq env t0 url p st, r) := by
  simp only [runPayloads]
  repeat' split
  all_goals first
  | exact Or.inl rfl
  | exact Or.inr ⟨_, rfl⟩

/-- A payload pass only appends to the request trace. -/
theorem runPayloads_queries_ext (env : Env) (cb : Option (String → Bool))
    (t0 : Nat) (url : String) :
    ∀ ps st, ∃ l, (runPayloads env cb t0 url ps st).1.queries = st.queries ++ l := by
  intro ps
  induction ps with
  | nil => intro st; exact ⟨[], by simp [runPayloads]⟩
  | cons p rest ih =>
    intro st
    rcases runPayloads_cons env cb t0 url p rest st with h | ⟨r, h⟩
    · obtain ⟨l, hl⟩ := ih (issueReq env t0 url p st)
      refine ⟨⟨url, p, st.clock, t0⟩ :: l, ?_⟩
      rw [h, hl]
      simp [issueReq]
    · exact ⟨[⟨url, p, st.clock, t0⟩], by rw [h]; rfl⟩

/-- With zero request latency a payload pass leaves the clock unchanged. -/
theorem runPayloads_clock_eq (env : Env) (cb : Option (String → Bool))
    (t0 : Nat) (url : String) (hq : ∀ n, env.qdur n = 0) :
    ∀ ps st, (runPayloads env cb t0 url ps st).1.clock = st.clock := by
  intro ps
  induction ps with
  | nil => intro st; simp [runPayloads]
  | cons p rest ih =>
    intro st
    have hiss : (issueReq env t0 url p st).clock = st.clock := by
      simp [issueReq, hq]
    rcases runPayloads_cons env cb t0 url p rest st with h | ⟨r, h⟩
    · rw [h, ih, hiss]
    · rw [h]; exact hiss

/-- With zero request latency, every request recorded during a payload
pass that was not already in the trace is issued at the pass's entry
clock with the pass's `t0`. -/
theorem runPayloads_new_time (env : Env) (cb : Option (String → Bool))
    (t0 : Nat) (url : String) (hq : ∀ n, env.qdur n = 0) :
    ∀ ps st, ∀ r ∈ (runPayloads env cb t0 url ps st).1.queries,
      r ∈ st.queries ∨ (r.time = st.clock ∧ r.t0 = t0) := by
  intro ps
  induction ps with
  | nil => intro st r hr; simp [runPayloads] at hr; exact Or.inl hr
  | cons p rest ih =>
    intro st r hr
    have hiss : (issueReq env t0 url p st).clock = st.clock := by
      simp [issueReq, hq]
    rcases runPayloads_cons env cb t0 url p rest st with h | ⟨res, h⟩
    · rw [h] at hr
      rcases ih (issueReq env t0 url p st) r hr with hin | htime
      · simp only [issueReq, List.mem_append, List.mem_singleton] at hin
        rcases hin with hin | hin
        · exact Or.inl hin
        · subst hin; exact Or.inr ⟨rfl, rfl⟩
      · rw [hiss] at htime
        exact Or.inr htime
    · rw [h] at hr
      simp only [issueReq, List.mem_append, List.mem_singleton] at hr
      rcases hr with hr | hr
      · exact Or.inl hr
      · subst hr; exact Or.inr ⟨rfl, rfl⟩

/-- A progress callback that never raises has no effect on a payload
pass: it behaves exactly like passing no callback. -/
theorem runPayloads_cb_benign (env : Env) (t0 : Nat) (url : String)
    (cb : Option (String → Bool)) (hcb : ∀ f s, cb = some f → f s = false) :
    ∀ ps st, runPayloads env cb t0 url ps st = runPayloads env none t0 url ps st := by
  intro ps
  induction ps with
  | nil => intro st; rfl
  | cons p rest ih =>
    intro st
    simp only [runPayloads]
    split
    · exact ih _
    · split
      · rfl
      · split
        · exact ih _
        · split
          · exact ih _
          · split
            · exact ih _
            · split
              · split
                · rfl
                · exact ih _
                · exact ih _
                · exact ih _
              · split
                · exact ih _
                · match hc : cb with
                  | none => rfl
                  | some f =>
                    have hf : ∀ s, f s = false := fun s => hcb f s rfl
                    simp only [hf, Bool.false_eq_true, if_false]

/-- The poll loop only appends to the request trace. -/
theorem pollLoop_queries_ext (env : Env) (cb : Option (String → Bool))
    (timeout_s : Nat) (url : String) (t0 : Nat) :
    ∀ gas qsucc st, ∃ l,
      (pollLoop env cb timeout_s url t0 gas qsucc st).1.queries = st.queries ++ l := by
  intro gas
  induction gas with
  | zero => intro qsucc st; exact ⟨[], by simp [pollLoop]⟩
  | succ gas ih =>
    intro qsucc st
    simp only [pollLoop]
    by_cases hg : st.clock - t0 < timeout_s
    · simp only [hg, if_true]
      rcases hrp : runPayloads env cb t0 url query_payloads st with ⟨st1, tr⟩
      have hext := runPayloads_queries_ext env cb t0 url query_payloads st
      rw [hrp] at hext
      obtain ⟨l, hl⟩ := hext
      cases tr with
      | done u => exact ⟨l, hl⟩
      | failed => exact ⟨l, hl⟩
      | progressed =>
        obtain ⟨l2, hl2⟩ := ih true ⟨st1.n, st1.clock + 2, st1.queries⟩
        have hl3 : st1.queries = st.queries ++ l := hl
        exact ⟨l ++ l2, by rw [hl2]; simp [hl3, List.append_assoc]⟩
    · simp only [hg, if_false]
      exact ⟨[], by simp⟩

/-- With zero request latency, every request the poll loop adds to the
trace is issued strictly before the per-endpoint deadline `t0 +
timeout_s` and carries this loop's `t0`. -/
theorem pollLoop_new_time (env : Env) (cb : Option (String → Bool))
    (timeout_s : Nat) (url : String) (t0 : Nat) (hq : ∀ n, env.qdur n = 0) :
    ∀ gas qsucc st, ∀ r ∈ (pollLoop env cb timeout_s url t0 gas qsucc st).1.queries,
      r ∈ st.queries ∨ (r.t0 = t0 ∧ r.time < t0 + timeout_s) := by
  intro gas
  induction gas with
  | zero => intro qsucc st r hr; exact Or.inl hr
  | succ gas ih =>
    intro qsucc st r hr
    rw [pollLoop] at hr
    by_cases hg : st.clock - t0 < timeout_s
    · simp only [hg, if_true] at hr
      have hclk : st.clock < t0 + timeout_s := by omega
      rcases hrp : runPayloads env cb t0 url query_payloads st with ⟨st1, tr⟩
      have hnew := runPayloads_new_time env cb t0 url hq query_payloads st
      rw [hrp] at hnew hr
      have hnew1 : ∀ x ∈ st1.queries,
          x ∈ st.queries ∨ (x.t0 = t0 ∧ x.time < t0 + timeout_s) := by
        intro x hx
        rcases hnew x hx with hx2 | ⟨hx2, hx3⟩
        · exact Or.inl hx2
        · exact Or.inr ⟨hx3, by omega⟩
      cases tr with
      | done u => exact hnew1 r hr
      | failed => exact hnew1 r hr
      | progressed =>
        rcases ih true ⟨st1.n, st1.clock + 2, st1.queries⟩ r hr with hin | hgood
        · exact hnew1 r hin
        · exact Or.inr hgood
    · simp only [hg, if_false] at hr
      exact Or.inl hr

/-- With zero request latency the poll loop's exit clock never exceeds
`t0 + timeout_s + 1` (the guard is re-checked after every 2-second
sleep). -/
theorem pollLoop_clock_bound (env : Env) (cb : Option (String → Bool))
    (timeout_s : Nat) (url : String) (t0 : Nat) (hq : ∀ n, env.qdur n = 0) :
    ∀ gas qsucc st, st.clock ≤ t0 + timeout_s + 1 →
      (pollLoop env cb timeout_s url t0 gas qsucc st).1.clock ≤ t0 + timeout_s + 1 := by
  intro gas
  induction gas with
  | zero => intro qsucc st hst; exact hst
  | succ gas ih =>
    intro qsucc st hst
    rw [pollLoop]
    by_cases hg : st.clock - t0 < timeout_s
    · simp only [hg, if_true]
      rcases hrp : runPayloads env cb t0 url query_payloads st with ⟨st1, tr⟩
      have hclk := runPayloads_clock_eq env cb t0 url hq query_payloads st
      rw [hrp] at hclk
      have hclk1 : st1.clock = st.clock := hclk
      cases tr with
      | done u => simpa [hclk1] using hst
      | failed => simpa [hclk1] using hst
      | progressed =>
        exact ih true ⟨st1.n, st1.clock + 2, st1.queries⟩ (by simp [hclk1]; omega)
    · simp only [hg, if_false]
      exact hst

/-- A progress callback that never raises has no effect on the poll
loop. -/
theorem pollLoop_cb_benign (env : Env) (timeout_s : Nat) (url : String) (t0 : Nat)
    (cb : Option (String → Bool)) (hcb : ∀ f s, cb = some f → f s = false) :
    ∀ gas qsucc st,
      pollLoop env cb timeout_s url t0 gas qsucc st =
        pollLoop env none timeout_s url t0 gas qsucc st := by
  intro gas
  induction gas with
  | zero => intro qsucc st; rfl
  | succ gas ih =>
    intro qsucc st
    simp only [pollLoop]
    by_cases hg : st.clock - t0 < timeout_s
    · simp only [hg, if_true]
      rw [runPayloads_cb_benign env t0 url cb hcb]
      rcases hrp : runPayloads env none t0 url query_payloads st with ⟨st1, tr⟩
      cases tr with
      | done u => rfl
      | failed => rfl
      | progressed => exact ih true ⟨st1.n, st1.clock + 2, st1.queries⟩
    · simp only [hg, if_false]

/-- Fidelity of the gas-driven loop: any two gas values large enough
that the loop cannot consume them before the guard fails produce the
same run.  In particular the gas `timeout_s + 1` used by `endpointLoop`
behaves as the unbounded source loop, whose every iteration advances
the clock by at least the 2-second sleep. -/
theorem pollLoop_gas_irrelevant (env : Env) (cb : Option (String → Bool))
    (timeout_s : Nat) (url : String) (t0 : Nat) :
    ∀ gas gas' qsucc st,
      t0 + timeout_s ≤ st.clock + 2 * gas →
      t0 + timeout_s ≤ st.clock + 2 * gas' →
      pollLoop env cb timeout_s url t0 gas qsucc st =
        pollLoop env cb timeout_s url t0 gas' qsucc st := by
  intro gas
  induction gas with
  | zero =>
    intro gas' qsucc st hg hg'
    have hguard : ¬ st.clock - t0 < timeout_s := by omega
    cases gas' with
    | zero => rfl
    | succ g' => simp [pollLoop, hguard]
  | succ gas ih =>
    intro gas' qsucc st hg hg'
    cases gas' with
    | zero =>
      have hguard : ¬ st.clock - t0 < timeout_s := by omega
      simp [pollLoop, hguard]
    | succ g' =>
      simp only [pollLoop]
      by_cases hguard : st.clock - t0 < timeout_s
      · simp only [hguard, if_true]
        rcases hrp : runPayloads env cb t0 url query_payloads st with ⟨st1, tr⟩
        have hle := runPayloads_clock_le env cb t0 url query_payloads st
        rw [hrp] at hle
        have hle1 : st.clock ≤ st1.clock := hle
        cases tr with
        | done u => rfl
        | failed => rfl
        | progressed =>
          exact ih g' true ⟨st1.n, st1.clock + 2, st1.queries⟩ (by simp; omega)
            (by simp; omega)
      · simp only [hguard, if_false]

/-- The endpoint loop only appends to the request trace. -/
theorem endpointLoop_queries_ext (env : Env) (cb : Option (String → Bool))
    (timeout_s : Nat) :
    ∀ urls st, ∃ l,
      (endpointLoop env cb timeout_s urls st).1.queries = st.queries ++ l := by
  intro urls
  induction urls with
  | nil => intro st; exact ⟨[], by simp [endpointLoop]⟩
  | cons url rest ih =>
    intro st
    simp only [endpointLoop]
    rcases hpl : pollLoop env cb timeout_s url st.clock (timeout_s + 1) false st
      with ⟨st1, ex⟩
    have hext := pollLoop_queries_ext env cb timeout_s url st.clock (timeout_s + 1) false st
    rw [hpl] at hext
    obtain ⟨l, hl⟩ := hext
    have hl1 : st1.queries = st.queries ++ l := hl
    cases ex with
    | done u => exact ⟨l, hl1⟩
    | guardExit qs =>
      cases qs with
      | true => exact ⟨l, hl1⟩
      | false =>
        obtain ⟨l2, hl2⟩ := ih st1
        exact ⟨l ++ l2, by rw [hl2, hl1]; simp [List.append_assoc]⟩
    | brokeOut =>
      obtain ⟨l2, hl2⟩ := ih st1
      exact ⟨l ++ l2, by rw [hl2, hl1]; simp [List.append_assoc]⟩

/-- With zero request latency, every request recorded by the endpoint
loop is issued strictly before the per-endpoint deadline
`r.t0 + timeout_s`, where `r.t0` is the poll start of the endpoint that
issued it. -/
theorem endpointLoop_new_time (env : Env) (cb : Option (String → Bool))
    (timeout_s : Nat) (hq : ∀ n, env.qdur n = 0) :
    ∀ urls st, ∀ r ∈ (endpointLoop env cb timeout_s urls st).1.queries,
      r ∈ st.queries ∨ r.time < r.t0 + timeout_s := by
  intro urls
  induction urls with
  | nil => intro st r hr; exact Or.inl hr
  | cons url rest ih =>
    intro st r hr
    rw [endpointLoop] at hr
    rcases hpl : pollLoop env cb timeout_s url st.clock (timeout_s + 1) false st
      with ⟨st1, ex⟩
    have hnew := pollLoop_new_time env cb timeout_s url st.clock hq (timeout_s + 1) false st
    rw [hpl] at hnew hr
    have hnew1 : ∀ x ∈ st1.queries, x ∈ st.queries ∨ x.time < x.t0 + timeout_s := by
      intro x hx
      rcases hnew x hx with h | ⟨ht0, ht⟩
      · exact Or.inl h
      · exact Or.inr (by rw [ht0]; exact ht)
    cases ex with
    | done u => exact hnew1 r hr
    | guardExit qs =>
      cases qs with
      | true => exact hnew1 r hr
      | false =>
        rcases ih st1 r hr with h | h
        · exact hnew1 r h
        · exact Or.inr h
    | brokeOut =>
      rcases ih st1 r hr with h | h
      · exact hnew1 r h
      · exact Or.inr h

/-- With zero request latency the endpoint loop finishes within
`urls.length * (timeout_s + 1)` seconds of its start. -/
theorem endpointLoop_clock_bound (env : Env) (cb : Option (String → Bool))
    (timeout_s : Nat) (hq : ∀ n, env.qdur n = 0) :
    ∀ urls st,
      (endpointLoop env cb timeout_s urls st).1.clock ≤
        st.clock + urls.length * (timeout_s + 1) := by
  intro urls
  induction urls with
  | nil => intro st; simp [endpointLoop]
  | cons url rest ih =>
    intro st
    rw [endpointLoop]
    rcases hpl : pollLoop env cb timeout_s url st.clock (timeout_s + 1) false st
      with ⟨st1, ex⟩
    have hbd := pollLoop_clock_bound env cb timeout_s url st.clock hq (timeout_s + 1)
      false st (by omega)
    rw [hpl] at hbd
    have hbd1 : st1.clock ≤ st.clock + timeout_s + 1 := hbd
    have hlen : (url :: rest).length * (timeout_s + 1) =
        rest.length * (timeout_s + 1) + (timeout_s + 1) := by
      simp [List.length_cons, Nat.succ_mul]
    cases ex with
    | done u => simp only []; omega
    | guardExit qs =>
      cases qs with
      | true => simp only []; omega
      | false =>
        have := ih st1
        simp only []; omega
    | brokeOut =>
      have := ih st1
      simp only []; omega

/-- A progress callback that never raises has no effect on the endpoint
loop. -/
theorem endpointLoop_cb_benign (env : Env) (timeout_s : Nat)
    (cb : Option (String → Bool)) (hcb : ∀ f s, cb = some f → f s = false) :
    ∀ urls st,
      endpointLoop env cb timeout_s urls st = endpointLoop env none timeout_s urls st := by
  intro urls
  induction urls with
  | nil => intro st; rfl
  | cons url rest ih =>
    intro st
    simp only [endpointLoop]
    rw [pollLoop_cb_benign env timeout_s url st.clock cb hcb]
    rcases hpl : pollLoop env none timeout_s url st.clock (timeout_s + 1) false st
      with ⟨st1, ex⟩
    cases ex with
    | done u => rfl
    | guardExit qs => cases qs with
      | true => rfl
      | false => exact ih st1
    | brokeOut => exact ih st1

/-- A nonempty payload pass issues at least one request. -/
theorem runPayloads_len_lt (env : Env) (cb : Option (String → Bool))
    (t0 : Nat) (url : String) (p : PayloadShape) (ps : List PayloadShape) (st : St) :
    st.queries.length < (runPayloads env cb t0 url (p :: ps) st).1.queries.length := by
  rcases runPayloads_cons env cb t0 url p ps st with h | ⟨r, h⟩
  · rw [h]
    obtain ⟨l, hl⟩ := runPayloads_queries_ext env cb t0 url ps (issueReq env t0 url p st)
    rw [hl]
    simp [issueReq]
  · rw [h]
    simp [issueReq]

/-- With positive gas and the guard open, one poll-loop pass issues at
least one status request. -/
theorem pollLoop_len_lt (env : Env) (cb : Option (String → Bool))
    (timeout_s : Nat) (url : String) (t0 : Nat) (gas : Nat) (qsucc : Bool) (st : St)
    (hguard : st.clock - t0 < timeout_s) :
    st.queries.length < (pollLoop env cb timeout_s url t0 (gas + 1) qsucc st).1.queries.length := by
  rw [pollLoop]
  simp only [hguard, if_true]
  rcases hrp : runPayloads env cb t0 url query_payloads st with ⟨st1, tr⟩
  have hlen := runPayloads_len_lt env cb t0 url .taskIdKey
    [.taskUnderscoreIdKey, .idKey, .bareId] st
  rw [show ([PayloadShape.taskIdKey, .taskUnderscoreIdKey, .idKey, .bareId] :
      List PayloadShape) = query_payloads from rfl, hrp] at hlen
  have hlen1 : st.queries.length < st1.queries.length := hlen
  cases tr with
  | done u => exact hlen1
  | failed => exact hlen1
  | progressed =>
    obtain ⟨l, hl⟩ := pollLoop_queries_ext env cb timeout_s url t0 gas
      true ⟨st1.n, st1.clock + 2, st1.queries⟩
    simp only [hl]
    simp only [List.length_append]
    omega

/-- With a positive timeout, polling a first endpoint issues at least
one status request. -/
theorem endpointLoop_len_lt (env : Env) (cb : Option (String → Bool))
    (timeout_s : Nat) (ht : 1 ≤ timeout_s) (url : String) (rest : List String) (st : St) :
    st.queries.length < (endpointLoop env cb timeout_s (url :: rest) st).1.queries.length := by
  rw [endpointLoop]
  have hguard : st.clock - st.clock < timeout_s := by omega
  have hlen := pollLoop_len_lt env cb timeout_s url st.clock timeout_s false st hguard
  rcases hpl : pollLoop env cb timeout_s url st.clock (timeout_s + 1) false st
    with ⟨st1, ex⟩
  rw [hpl] at hlen
  have hlen1 : st.queries.length < st1.queries.length := hlen
  cases ex with
  | done u => exact hlen1
  | guardExit qs =>
    cases qs with
    | true => exact hlen1
    | false =>
      obtain ⟨l, hl⟩ := endpointLoop_queries_ext env cb timeout_s rest st1
      simp only [hl, List.length_append]
      omega
  | brokeOut =>
    obtain ⟨l, hl⟩ := endpointLoop_queries_ext env cb timeout_s rest st1
    simp only [hl, List.length_append]
    omega

/-! ### Concrete scenarios -/

/-- A successful submission reply carrying task ID "t". -/
def submit_ok_t : SubmitOutcome :=
  .resp ⟨200, "", some ⟨some 200, none, ⟨some "t", []⟩⟩⟩

/-- Status reply: task still running. -/
def reply_running : QueryStep :=
  .resp ⟨200, some ⟨some 200, none, ⟨some "running", none, none⟩⟩⟩

/-- Status reply: task failed with failMsg "bad image". -/
def reply_fail_bad_image : QueryStep :=
  .resp ⟨200, some ⟨some 200, none, ⟨some "fail", none, some "bad image"⟩⟩⟩

/-- Status reply: state "success" whose resultJson parses to an empty
resultUrls list. -/
def reply_success_no_urls : QueryStep :=
  .resp ⟨200, some ⟨some 200, none, ⟨some "success", some (.parsed []), none⟩⟩⟩

/-- Status reply: HTTP 404. -/
def reply_404 : QueryStep := .resp ⟨404, none⟩

/-- Every status reply reports state "fail" with failMsg "bad image". -/
def env_fail_poll : Env := ⟨submit_ok_t, fun _ => reply_fail_bad_image, fun _ => 0⟩

/-- Every status reply reports success but carries no result URL. -/
def env_success_no_urls : Env := ⟨submit_ok_t, fun _ => reply_success_no_urls, fun _ => 0⟩

/-- The second status request gets a 404; every other one reports
"running".  All replies are instantaneous. -/
def env_deadline : Env :=
  ⟨submit_ok_t, fun n => if n = 1 then reply_404 else reply_running, fun _ => 0⟩

/-- Every status reply reports "running" forever. -/
def env_running : Env := ⟨submit_ok_t, fun _ => reply_running, fun _ => 0⟩

/-- Submission reply carrying both a task ID and a nonempty result-URL
list; every status request 404s. -/
def env_immediate_urls : Env :=
  ⟨.resp ⟨200, "", some ⟨some 200, none, ⟨some "t", ["http://result"]⟩⟩⟩,
   fun _ => reply_404, fun _ => 0⟩

/-- The submission POST raises a connection error. -/
def env_submit_connect_refused : Env :=
  ⟨.connectError "connection refused", fun _ => reply_404, fun _ => 0⟩

/-- Any run either never reaches polling (empty trace, zero clock) or
reports exactly the trace and clock of the endpoint loop started at the
submission instant. -/
theorem try_on_run_shape (apiKey : String) (timeout_s : Nat)
    (cb : Option (String → Bool)) (env : Env) :
    ((try_on_with_fal_nanobanana apiKey timeout_s cb env).queries = [] ∧
     (try_on_with_fal_nanobanana apiKey timeout_s cb env).finalClock = 0) ∨
    ((try_on_with_fal_nanobanana apiKey timeout_s cb env).queries =
       (endpointLoop env cb timeout_s KIE_QUERY_URLS ⟨0, 0, []⟩).1.queries ∧
     (try_on_with_fal_nanobanana apiKey timeout_s cb env).finalClock =
       (endpointLoop env cb timeout_s KIE_QUERY_URLS ⟨0, 0, []⟩).1.clock) := by
  unfold try_on_with_fal_nanobanana
  repeat' split
  all_goals try exact Or.inl ⟨rfl, rfl⟩
  all_goals rename_i heq
  all_goals exact Or.inr ⟨by rw [heq], by rw [heq]⟩

/-! ### Claim theorems for the provider call -/

/-- C1: a status reply with state "fail" does not terminate the call.
The `FalError("Task failed: bad image")` raised at line 166 is caught by
the handler at line 175; the call goes on to issue fifteen further
status requests (the remaining payload shapes and endpoints) and
finally fails with "Unexpected error: All query endpoints failed"
instead of the rejection message. -/
theorem c1_fail_state_swallowed :
    (try_on_with_fal_nanobanana "k" 120 none env_fail_poll).outcome =
        .error "Unexpected error: All query endpoints failed" ∧
    (try_on_with_fal_nanobanana "k" 120 none env_fail_poll).queries.length = 16 ∧
    (try_on_with_fal_nanobanana "k" 120 none env_fail_poll).outcome ≠
        .error "Task failed: bad image" := by
  decide

/-- C4: a status reply with state "success" but an empty resultUrls list
does not surface `FalError("No result URLs in successful response")`:
the raise at line 160 is caught at line 175, fifteen further status
requests are issued, and the call fails with the generic
"Unexpected error: All query endpoints failed". -/
theorem c4_bad_success_swallowed :
    (try_on_with_fal_nanobanana "k" 120 none env_success_no_urls).outcome =
        .error "Unexpected error: All query endpoints failed" ∧
    (try_on_with_fal_nanobanana "k" 120 none env_success_no_urls).queries.length = 16 ∧
    (try_on_with_fal_nanobanana "k" 120 none env_success_no_urls).outcome ≠
        .error "No result URLs in successful response" := by
  decide

/-- C2 counterexample: with deadline 3 s and a poll history
running / 404 / running / running, the fourth status request is issued
4 s after submission (past the deadline) because `t0` restarts at each
query endpoint (line 103), and the call reaches its terminal outcome
only at 6 s, twice the caller-supplied deadline. -/
theorem c2_deadline_counterexample :
    3 < (try_on_with_fal_nanobanana "k" 3 none env_deadline).finalClock ∧
    (∃ r ∈ (try_on_with_fal_nanobanana "k" 3 none env_deadline).queries, 3 < r.time) ∧
    (try_on_with_fal_nanobanana "k" 3 none env_deadline).outcome =
        .error "Unexpected error: Task polling timed out" := by
  decide

/-- C2 (amended): the deadline is enforced per query endpoint, not per
call.  With instantaneous replies, every status request is issued
strictly before `timeout_s` seconds after its own endpoint's poll start
(`r.t0`), and the whole call finishes within
`KIE_QUERY_URLS.length * (timeout_s + 1)` seconds of submission —
but not, in general, within `timeout_s` itself. -/
theorem c2_per_endpoint_deadline (apiKey : String) (timeout_s : Nat)
    (cb : Option (String → Bool)) (env : Env) (hq : ∀ n, env.qdur n = 0) :
    (∀ r ∈ (try_on_with_fal_nanobanana apiKey timeout_s cb env).queries,
        r.time < r.t0 + timeout_s) ∧
    (try_on_with_fal_nanobanana apiKey timeout_s cb env).finalClock ≤
        KIE_QUERY_URLS.length * (timeout_s + 1) := by
  rcases try_on_run_shape apiKey timeout_s cb env with ⟨hqs, hclk⟩ | ⟨hqs, hclk⟩
  · constructor
    · intro r hr; rw [hqs] at hr; cases hr
    · rw [hclk]; exact Nat.zero_le _
  · constructor
    · intro r hr
      rw [hqs] at hr
      rcases endpointLoop_new_time env cb timeout_s hq KIE_QUERY_URLS ⟨0, 0, []⟩ r hr
        with h | h
      · cases h
      · exact h
    · rw [hclk]
      have := endpointLoop_clock_bound env cb timeout_s hq KIE_QUERY_URLS ⟨0, 0, []⟩
      simpa using this

/-- Witness for the amended C2 on a concrete always-running
environment with deadline 5. -/
theorem c2_per_endpoint_deadline_witness :
    (∀ r ∈ (try_on_with_fal_nanobanana "k" 5 none env_running).queries,
        r.time < r.t0 + 5) ∧
    (try_on_with_fal_nanobanana "k" 5 none env_running).finalClock ≤
        KIE_QUERY_URLS.length * (5 + 1) :=
  c2_per_endpoint_deadline "k" 5 none env_running (fun _ => rfl)

/-- C3 counterexample: a submission reply that carries a nonempty
result-URL list (alongside its task ID) is not returned as an immediate
outcome: the code never reads submission result URLs, polls anyway
(four status requests here, one per endpoint, all 404), and ends in
"All query endpoints failed" rather than returning "http://result". -/
theorem c3_immediate_counterexample :
    (try_on_with_fal_nanobanana "k" 120 none env_immediate_urls).queries.length = 4 ∧
    (try_on_with_fal_nanobanana "k" 120 none env_immediate_urls).queries ≠ [] ∧
    (try_on_with_fal_nanobanana "k" 120 none env_immediate_urls).outcome =
        .error "Unexpected error: All query endpoints failed" := by
  decide

/-- C3 (amended): there is no immediate-result path.  Whatever
result-URL list the submission reply carries, the call fails with the
missing-task-ID error (and issues no status request) when the task ID
is absent or empty, and always proceeds to polling (at least one status
request, given a positive timeout) when a nonempty task ID is present. -/
theorem c3_submission_urls_ignored (apiKey : String) (hk : apiKey ≠ "")
    (timeout_s : Nat) (cb : Option (String → Bool)) (q : Nat → QueryStep)
    (qd : Nat → Nat) (m : Option String) (tid : Option String) (urls : List String) :
    ((tid = none ∨ tid = some "") →
      try_on_with_fal_nanobanana apiKey timeout_s cb
          ⟨.resp ⟨200, "", some ⟨some 200, m, ⟨tid, urls⟩⟩⟩, q, qd⟩ =
        ⟨.error "Unexpected error: Kie.ai API did not return task ID", 1, [], 0⟩) ∧
    (∀ t, tid = some t → t ≠ "" → 1 ≤ timeout_s →
      1 ≤ (try_on_with_fal_nanobanana apiKey timeout_s cb
          ⟨.resp ⟨200, "", some ⟨some 200, m, ⟨tid, urls⟩⟩⟩, q, qd⟩).queries.length) := by
  constructor
  · rintro (rfl | rfl) <;> simp [try_on_with_fal_nanobanana, hk]
  · rintro t rfl ht htm
    set env : Env := ⟨.resp ⟨200, "", some ⟨some 200, m, ⟨some t, urls⟩⟩⟩, q, qd⟩ with henv
    have hlen := endpointLoop_len_lt env cb timeout_s htm
      "https://api.kie.ai/api/v1/jobs/queryTask"
      ["https://api.kie.ai/api/v1/jobs/getTask",
       "https://api.kie.ai/api/v1/jobs/task",
       "https://api.kie.ai/api/v1/task"] ⟨0, 0, []⟩
    rw [show ("https://api.kie.ai/api/v1/jobs/queryTask" ::
        ["https://api.kie.ai/api/v1/jobs/getTask",
         "https://api.kie.ai/api/v1/jobs/task",
         "https://api.kie.ai/api/v1/task"]) = KIE_QUERY_URLS from rfl] at hlen
    rcases hel : endpointLoop env cb timeout_s KIE_QUERY_URLS ⟨0, 0, []⟩ with ⟨st1, eo⟩
    rw [hel] at hlen
    have hlen1 : 1 ≤ st1.queries.length := hlen
    have hq : (try_on_with_fal_nanobanana apiKey timeout_s cb env).queries =
        st1.queries := by
      simp only [try_on_with_fal_nanobanana, hk, if_false, henv]
      rw [hel]
      cases eo <;> simp [ht]
    rw [hq]
    exact hlen1

/-- Witness for the amended C3: with task ID "t" present and every
status request 404ing, at least one status request is issued. -/
theorem c3_submission_urls_ignored_witness :
    1 ≤ (try_on_with_fal_nanobanana "k" 120 none
        ⟨.resp ⟨200, "", some ⟨some 200, none, ⟨some "t", ["http://result"]⟩⟩⟩,
         fun _ => reply_404, fun _ => 0⟩).queries.length :=
  (c3_submission_urls_ignored "k" (by decide) 120 none (fun _ => reply_404)
    (fun _ => 0) none (some "t") ["http://result"]).2 "t" rfl (by decide) (by decide)

/-- C5 counterexample: when the submission POST raises a connection
error, the call makes exactly one submission attempt — not one per
catalog entry (the four-entry `KIE_QUERY_URLS` catalog applies to
status queries only) — and fails with the connect message rather than
an exhaustion error. -/
theorem c5_submission_connect_counterexample :
    (try_on_with_fal_nanobanana "k" 120 none env_submit_connect_refused).submits = 1 ∧
    KIE_QUERY_URLS.length = 4 ∧
    (try_on_with_fal_nanobanana "k" 120 none env_submit_connect_refused).submits ≠
        KIE_QUERY_URLS.length ∧
    (try_on_with_fal_nanobanana "k" 120 none env_submit_connect_refused).outcome =
        .error "Failed to connect to Kie.ai API: connection refused" ∧
    (try_on_with_fal_nanobanana "k" 120 none env_submit_connect_refused).queries = [] := by
  decide

/-- C5 (amended): submission uses the single endpoint `KIE_API_URL`;
a connection error there aborts the whole call after exactly one
submission attempt and zero status requests, raising
`FalError("Failed to connect to Kie.ai API: <e>")` (handler at
lines 200-202) with no retry against any other endpoint. -/
theorem c5_connect_single_attempt (e : String) (apiKey : String) (hk : apiKey ≠ "")
    (timeout_s : Nat) (cb : Option (String → Bool)) (q : Nat → QueryStep)
    (qd : Nat → Nat) :
    try_on_with_fal_nanobanana apiKey timeout_s cb ⟨.connectError e, q, qd⟩ =
      ⟨.error ("Failed to connect to Kie.ai API: " ++ e), 1, [], 0⟩ := by
  simp [try_on_with_fal_nanobanana, hk]

/-- Witness for the amended C5 at a concrete connect failure. -/
theorem c5_connect_single_attempt_witness :
    try_on_with_fal_nanobanana "k" 120 none
        ⟨.connectError "connection refused", fun _ => reply_404, fun _ => 0⟩ =
      ⟨.error ("Failed to connect to Kie.ai API: " ++ "connection refused"), 1, [], 0⟩ :=
  c5_connect_single_attempt "connection refused" "k" (by decide) 120 none
    (fun _ => reply_404) (fun _ => 0)

/-- C8: with the resolved credential empty (KIE_API_KEY unset or empty,
FAL_KEY fallback included), the call fails immediately with
`FalError("KIE_API_KEY not configured")`, making zero submission
attempts and zero status requests. -/
theorem c8_unconfigured_no_network (kieVar falVar : Option String)
    (h : kieApiKeyFromEnv kieVar falVar = "") (timeout_s : Nat)
    (cb : Option (String → Bool)) (env : Env) :
    try_on_with_fal_nanobanana (kieApiKeyFromEnv kieVar falVar) timeout_s cb env =
      ⟨.error "KIE_API_KEY not configured", 0, [], 0⟩ := by
  simp [try_on_with_fal_nanobanana, h]

/-- Witness for C8 with both environment variables unset. -/
theorem c8_unconfigured_no_network_witness :
    try_on_with_fal_nanobanana (kieApiKeyFromEnv none none) 120 none env_running =
      ⟨.error "KIE_API_KEY not configured", 0, [], 0⟩ :=
  c8_unconfigured_no_network none none rfl 120 none env_running

/-- C9 counterexample: two runs that differ only in the progress
callback — one that returns normally versus one that raises — give a
different status-request sequence and a different terminal outcome,
because a raising callback is caught by the handler at line 175 and
counts as a failed query attempt. -/
theorem c9_raising_callback_counterexample :
    (try_on_with_fal_nanobanana "k" 2 (some (fun _ => false)) env_running).outcome ≠
        (try_on_with_fal_nanobanana "k" 2 (some (fun _ => true)) env_running).outcome ∧
    (try_on_with_fal_nanobanana "k" 2 (some (fun _ => false)) env_running).queries.length = 1 ∧
    (try_on_with_fal_nanobanana "k" 2 (some (fun _ => true)) env_running).queries.length = 16 := by
  decide

/-- C9 (amended): as long as the progress callback never raises, it is
purely observational — any two runs differing only in the callback
(including passing none at all) issue the same status requests and
produce the same outcome. -/
theorem c9_callback_observational (apiKey : String) (timeout_s : Nat) (env : Env)
    (cb1 cb2 : Option (String → Bool))
    (h1 : ∀ f s, cb1 = some f → f s = false)
    (h2 : ∀ f s, cb2 = some f → f s = false) :
    try_on_with_fal_nanobanana apiKey timeout_s cb1 env =
      try_on_with_fal_nanobanana apiKey timeout_s cb2 env := by
  have key : ∀ cb : Option (String → Bool), (∀ f s, cb = some f → f s = false) →
      try_on_with_fal_nanobanana apiKey timeout_s cb env =
        try_on_with_fal_nanobanana apiKey timeout_s none env := by
    intro cb hcb
    simp only [try_on_with_fal_nanobanana,
      endpointLoop_cb_benign env timeout_s cb hcb]
  rw [key cb1 h1, key cb2 h2]

/-- Witness for the amended C9: no callback versus a benign callback on
the always-running environment. -/
theorem c9_callback_observational_witness :
    try_on_with_fal_nanobanana "k" 2 none env_running =
      try_on_with_fal_nanobanana "k" 2 (some (fun _ => false)) env_running :=
  c9_callback_observational "k" 2 env_running none (some (fun _ => false))
    (fun _ _ h => nomatch h) (fun f s h => by cases h; rfl)

/-! ### The `/api/tryon` route (`backend/app.py`, lines 247-353) -/

/-- `Settings` fields the route reads (app.py lines 36-47).  Note that
`KIE_API_KEY` exists as a settings field but the route never consults
it. -/
structure AppSettings where
  FAL_KEY : String
  KIE_API_KEY : String
  MAX_UPLOAD_MB : Nat
  DELETE_AFTER_MINUTES : Nat
  deriving DecidableEq

/-- Outcome of `Image.open` + `convert` on the upload (lines 277-284). -/
inductive ImageDecode
  | ok
  | unidentified
  | otherError
  deriving DecidableEq

/-- Abstract inputs of one `/api/tryon` call: the multipart fields and
the behavior of the image/file collaborators. -/
structure ApiRequest where
  personFilename : Option String
  contentLen : Nat
  decode : ImageDecode
  saveOk : Bool
  garmentUrl : String
  category : Option String
  promptExtra : Option String

/-- HTTP-level outcome of the route: an `HTTPException` or the
`TryOnResult` body (lines 341-346). -/
inductive ApiResp
  | httpError (status : Nat) (detail : String)
  | result (imageUrl description requestId : String) (ttlMinutes : Nat)
  deriving DecidableEq

/-- `api_tryon` (app.py lines 247-353), paired with the number of
provider invocations.  `kieApiKey` is the provider module's resolved
`KIE_API_KEY`, independent of `settings.FAL_KEY`.  The app passes a
progress callback that appends to a local list and never raises
(line 329), and relies on the provider's default 120-second timeout. -/
def api_tryon (settings : AppSettings) (kieApiKey : String) (req : ApiRequest)
    (fenv : Env) : ApiResp × Nat :=
  -- lines 259-262: the gate inspects settings.FAL_KEY only
  if settings.FAL_KEY = "" then
    (.httpError 500 "Service not properly configured", 0)
  else
    match req.personFilename with
    | none => (.httpError 400 "Missing 'person' file", 0)        -- lines 267-268
    | some fn =>
      -- lines 270, 108-111: _basic_guard over the lowercased filename
      if "nude".toList <:+: fn.toLower.toList ∨
          "nsfw".toList <:+: fn.toLower.toList then
        (.httpError 422 "Content rejected by policy", 0)
      else if settings.MAX_UPLOAD_MB * 1024 * 1024 < req.contentLen then
        (.httpError 413 "File too large", 0)                     -- lines 273-274
      else
        match req.decode with
        | .unidentified => (.httpError 400 "Unsupported image type", 0)
        | .otherError => (.httpError 400 "Image processing failed", 0)
        | .ok =>
          if req.saveOk = false then
            (.httpError 500 "Failed to process image", 0)        -- lines 309-314
          else
            match try_on_with_fal_nanobanana kieApiKey 120
                (some (fun _ => false)) fenv with
            | ⟨.ok url desc rid, _, _, _⟩ =>
                -- lines 341-346; `desc or "Generated by NanoBanana"`
                (.result url (if desc = "" then "Generated by NanoBanana" else desc)
                  rid settings.DELETE_AFTER_MINUTES, 1)
            | ⟨.error msg, _, _, _⟩ =>
                (.httpError 502 ("Upstream failure: " ++ msg), 1) -- lines 331-333

/-- C10: the public route gates on `settings.FAL_KEY` alone — whenever
it is empty the route returns HTTP 500 "Service not properly
configured" without invoking the provider, for every request and even
when the provider's own `KIE_API_KEY` credential is configured. -/
theorem c10_gate_reads_fal_key_only (settings : AppSettings) (kieApiKey : String)
    (req : ApiRequest) (fenv : Env) (h : settings.FAL_KEY = "") :
    api_tryon settings kieApiKey req fenv =
      (.httpError 500 "Service not properly configured", 0) := by
  simp [api_tryon, h]

/-- Witness for C10: FAL_KEY empty while the provider credential is
set and the provider would run. -/
theorem c10_gate_reads_fal_key_only_witness :
    api_tryon ⟨"", "secret", 10, 60⟩ "secret"
        ⟨some "selfie.jpg", 1000, .ok, true, "http://garment", none, none⟩
        env_running =
      (.httpError 500 "Service not properly configured", 0) :=
  c10_gate_reads_fal_key_only ⟨"", "secret", 10, 60⟩ "secret"
    ⟨some "selfie.jpg", 1000, .ok, true, "http://garment", none, none⟩
    env_running rfl
